import Mathlib

/- A model of the shared-array-buffer (SAB) transport core of a browser-hosted
   realtime audio engine: the control host (`SharedArrayBufferMainThread`), the
   synthesis worker render loop (`sab.worker.js`), and the shared 32-bit state
   vector they coordinate through.  Shared 32-bit words are modelled as `Int`
   wrapped to the signed 32-bit range at each store; the shared vector is a
   structure with one field per `AUDIO_STATE` slot; the engine behind the wasm
   ABI is an opaque record of its query results. -/

/-- Wrap an integer to the signed 32-bit range, as a store into an
`Int32Array` does. -/
def int32 (x : Int) : Int := (x + 2 ^ 31) % 2 ^ 32 - 2 ^ 31

/-- Modelled from the spec: `MIDI_BUFFER_PAYLOAD_SIZE` lives in `constants.js`,
which is not among the sources; §3.3 fixes each MIDI event at three words
`(status, data1, data2)`. -/
def MIDI_BUFFER_PAYLOAD_SIZE : Int := 3

/-- Modelled from the spec: the `AUDIO_STATE` index table lives in
`constants.js`, which is not among the sources.  The fields follow the table
in §3.1 of the spec, plus the `KSMPS` slot that §8 refers to.  `ATOMIC_NOFITY`
and `ATOMIC_NOTIFY` are treated as one and the same word, as §9 instructs
("Treat both as the same field").  Each field holds one 32-bit signed word of
the shared state vector. -/
structure AudioState where
  isPerforming : Int
  isPaused : Int
  stop : Int
  atomicNotify : Int
  nchnls : Int
  nchnlsI : Int
  sampleRate : Int
  hwBufferSize : Int
  swBufferSize : Int
  availInBufs : Int
  availOutBufs : Int
  inputReadIndex : Int
  outputWriteIndex : Int
  isRequestingRtmidi : Int
  availRtmidiEvents : Int
  rtmidiIndex : Int
  ksmps : Int
deriving DecidableEq

/-- Modelled from the spec: the `initialSharedState` template lives in
`constants.js`, which is not among the sources.  §8 pins the frame counters
and cursors at 0 before any start; scenario 1 of §8 fixes the software buffer
at 128 frames and leaves the hardware ring at 4096 frames; every entry the
spec does not determine is left at 0. -/
def initialSharedState : AudioState where
  isPerforming := 0
  isPaused := 0
  stop := 0
  atomicNotify := 0
  nchnls := 0
  nchnlsI := 0
  sampleRate := 0
  hwBufferSize := 4096
  swBufferSize := 128
  availInBufs := 0
  availOutBufs := 0
  inputReadIndex := 0
  outputWriteIndex := 0
  isRequestingRtmidi := 0
  availRtmidiEvents := 0
  rtmidiIndex := 0
  ksmps := 0

/-- The play states the host's `currentPlayState` can hold: `initial` stands
for the `undefined` it is constructed with, `stopped` for the derived state
named `stop` in the spec, the rest for the broadcast play-state-change
strings. -/
inductive PlayState where
  | initial
  | stopped
  | realtimePerformanceStarted
  | realtimePerformancePaused
  | realtimePerformanceResumed
  | realtimePerformanceEnded
  | renderStarted
  | renderEnded
deriving DecidableEq

/-- Modelled from the spec: `stopableStates` lives in `utils.js`, which is not
among the sources; §3.5 gives the set as `{realtimePerformanceStarted,
renderStarted, realtimePerformancePaused, realtimePerformanceResumed}`. -/
def stopableStates : List PlayState :=
  [PlayState.realtimePerformanceStarted, PlayState.renderStarted,
   PlayState.realtimePerformancePaused, PlayState.realtimePerformanceResumed]

/-- The control-host state touched by the lifecycle operations: the current
play state, the contents of `this.audioStatePointer`, and whether a
`stopPromiz` completion is pending. -/
structure MainState where
  currentPlayState : PlayState
  audioState : AudioState
  stopPending : Bool
deriving DecidableEq

/-- The host constructed with `currentPlayState = undefined` over a freshly
allocated state vector. -/
def initialMain : MainState where
  currentPlayState := PlayState.initial
  audioState := initialSharedState
  stopPending := false

/-- The host's `onPlayStateChange` handler: records the new play state; on
`realtimePerformanceEnded` it resolves any pending `stopPromiz` and stores the
`initialSharedState` template back over the whole state vector; on
`renderEnded` it only resolves the pending `stopPromiz`.  (Forwarding to the
audio backend, `prepareRealtimePerformance`, `startPromiz` resolution and the
user callbacks are I/O this model does not track.) -/
def onPlayStateChange (m : MainState) (newPlayState : PlayState) : MainState :=
  let m1 : MainState := { m with currentPlayState := newPlayState }
  match newPlayState with
  | PlayState.realtimePerformanceEnded =>
      { m1 with stopPending := false, audioState := initialSharedState }
  | PlayState.renderEnded => { m1 with stopPending := false }
  | _ => m1

/-- What one `csoundStop` call does: the state it leaves, its numeric return
value, and which shared words it called `Atomics.notify` on. -/
structure StopResult where
  state : MainState
  ret : Int
  notifiedIsPaused : Bool
  notifiedAtomicNotify : Bool
deriving DecidableEq

/-- The host's `csoundStop`: when the current play state is stopable it
creates the `stopPromiz`, stores `STOP := 1` and `IS_PERFORMING := 0`; when
the play state is `realtimePerformancePaused` it stores `IS_PAUSED := 0` and
notifies `IS_PAUSED`; when the play state is not `renderStarted` it stores 1
into the doorbell word and notifies it; the 0 it returns is delivered once the
pending `stopPromiz` resolves.  Otherwise it returns -1 and touches nothing. -/
def csoundStop (m : MainState) : StopResult :=
  if m.currentPlayState ∈ stopableStates then
    let a1 : AudioState := { m.audioState with stop := 1, isPerforming := 0 }
    let pausedCase := m.currentPlayState = PlayState.realtimePerformancePaused
    let a2 : AudioState := if pausedCase then { a1 with isPaused := 0 } else a1
    let notifyCase := m.currentPlayState ≠ PlayState.renderStarted
    let a3 : AudioState := if notifyCase then { a2 with atomicNotify := 1 } else a2
    { state := { m with audioState := a3, stopPending := true },
      ret := 0,
      notifiedIsPaused := decide pausedCase,
      notifiedAtomicNotify := decide notifyCase }
  else
    { state := m, ret := -1, notifiedIsPaused := false, notifiedAtomicNotify := false }

/-- What one `csoundPause` / `csoundResume` call does: the state it leaves,
the play-state change it pushed through `onPlayStateChange` (if any), whether
it notified `IS_PAUSED`, and its return value — the JS functions have no
return statement, so they always resolve with no value. -/
structure HostCallResult where
  state : MainState
  broadcast : Option PlayState
  notifiedIsPaused : Bool
  ret : Option Int
deriving DecidableEq

/-- The host's `csoundPause`: only when `IS_PAUSED ≠ 1`, `STOP ≠ 1` and
`IS_PERFORMING = 1` does it store `IS_PAUSED := 1` and run
`onPlayStateChange "realtimePerformancePaused"`; otherwise it does nothing. -/
def csoundPause (m : MainState) : HostCallResult :=
  if m.audioState.isPaused ≠ 1 ∧ m.audioState.stop ≠ 1 ∧
      m.audioState.isPerforming = 1 then
    let m1 : MainState := { m with audioState := { m.audioState with isPaused := 1 } }
    { state := onPlayStateChange m1 PlayState.realtimePerformancePaused,
      broadcast := some PlayState.realtimePerformancePaused,
      notifiedIsPaused := false,
      ret := none }
  else
    { state := m, broadcast := none, notifiedIsPaused := false, ret := none }

/-- The host's `csoundResume`: only when `IS_PAUSED = 1`, `STOP ≠ 1` and
`IS_PERFORMING = 1` does it store `IS_PAUSED := 0`, notify `IS_PAUSED` and run
`onPlayStateChange "realtimePerformanceResumed"`; otherwise it does nothing. -/
def csoundResume (m : MainState) : HostCallResult :=
  if m.audioState.isPaused = 1 ∧ m.audioState.stop ≠ 1 ∧
      m.audioState.isPerforming = 1 then
    let m1 : MainState := { m with audioState := { m.audioState with isPaused := 0 } }
    { state := onPlayStateChange m1 PlayState.realtimePerformanceResumed,
      broadcast := some PlayState.realtimePerformanceResumed,
      notifiedIsPaused := true,
      ret := none }
  else
    { state := m, broadcast := none, notifiedIsPaused := false, ret := none }

/-- A single `Atomics.store` into a flat shared `Int32Array`, viewed as a
function from word index to contents. -/
def storeAt (buf : Int → Int) (i v : Int) : Int → Int :=
  fun j => if j = i then int32 v else buf j

/-- The host's `handleMidiInput` over the shared MIDI ring (word modulus `m`,
the `MIDI_BUFFER_SIZE` constant): loads the queue length and the consume
cursor, writes the three words of the event at
`(length * MIDI_BUFFER_PAYLOAD_SIZE + cursor) % MIDI_BUFFER_SIZE` — the two
trailing words at the two following raw indices, as in the source — and adds
1 to `AVAIL_RTMIDI_EVENTS`.  JS `%` on 32-bit integers is truncating division
remainder, hence `Int.tmod`. -/
def handleMidiInput (m : Int) (a : AudioState) (buf : Int → Int)
    (status data1 data2 : Int) : AudioState × (Int → Int) :=
  let currentQueueLength := a.availRtmidiEvents
  let rtmidiBufferIndex := a.rtmidiIndex
  let nextIndex := (currentQueueLength * MIDI_BUFFER_PAYLOAD_SIZE + rtmidiBufferIndex).tmod m
  let buf1 := storeAt buf nextIndex status
  let buf2 := storeAt buf1 (nextIndex + 1) data1
  let buf3 := storeAt buf2 (nextIndex + 2) data2
  ({ a with availRtmidiEvents := int32 (a.availRtmidiEvents + 1) }, buf3)

/-- The opaque engine behind the wasm ABI, recorded through the query results
the worker setup consumes (`csoundGetNchnls`, `csoundGetNchnlsInput`,
`csoundGetSr`, `csoundGetKsmps`, `_isRequestingRtMidiInput`,
`csoundGetInputName`). -/
structure Engine where
  nchnls : Int
  nchnlsInput : Int
  sr : Int
  ksmps : Int
  isRequestingRtMidiInput : Int
  inputName : String
deriving DecidableEq

/-- Whether `needle` is a prefix of `hay`, on character lists. -/
def charsStartWith : List Char → List Char → Bool
  | [], _ => true
  | _ :: _, [] => false
  | a :: as, b :: bs => a == b && charsStartWith as bs

/-- Whether `needle` occurs contiguously inside `hay`, on character lists. -/
def charsInside (needle : List Char) : List Char → Bool
  | [] => charsStartWith needle []
  | b :: bs => charsStartWith needle (b :: bs) || charsInside needle bs

/-- JS `String.prototype.includes`. -/
def stringIncludes (hay needle : String) : Bool :=
  charsInside needle.toList hay.toList

/-- The setup phase of `sabCreateRealtimeAudioThread`, up to and including the
`realtimePerformanceStarted` broadcast: resets the shared vector to the
`initialSharedState` template, queries the engine, stores `NCHNLS`,
`NCHNLS_I` (the input channel count only when the input name contains
`"adc"`, else 0), `SAMPLE_RATE` and `IS_REQUESTING_RTMIDI`, reads `ksmps` and
`0dBFS` into locals, stores `IS_PERFORMING := 1` and broadcasts.  Returns the
shared vector as broadcast time sees it, together with the broadcast play
state. -/
def sabSetup (e : Engine) : AudioState × PlayState :=
  let a0 := initialSharedState
  let isExpectingInput := stringIncludes e.inputName "adc"
  let nchnlsInput := if isExpectingInput then e.nchnlsInput else 0
  let a1 : AudioState :=
    { a0 with nchnls := int32 e.nchnls, nchnlsI := int32 nchnlsInput,
              sampleRate := int32 e.sr,
              isRequestingRtmidi := int32 e.isRequestingRtMidiInput }
  let a2 : AudioState := { a1 with isPerforming := 1 }
  (a2, PlayState.realtimePerformanceStarted)

/-- Whether `Atomics.wait(view, index, expected)` blocks: it sleeps until a
notify only when the word currently holds the expected value, and otherwise
returns `"not-equal"` at once. -/
def atomicsWaitBlocks (current expected : Int) : Bool :=
  current == expected

/-- One step of a ring cursor inside the copy loop: `Atomics.add(..., 1)`
followed by the store of 0 once the loaded value reaches the hardware ring
size `hwB`. -/
def advanceIndex (hwB x : Int) : Int :=
  let x1 := int32 (x + 1)
  if x1 ≥ hwB then 0 else x1

/-- The MIDI drain of one render-loop wake (`sab.worker.js` lines 154-171):
when MIDI is requested and `AVAIL_RTMIDI_EVENTS = n > 0`, it pushes to the
engine, for `idx = 0 … n-1`, the three words found at
`(RTMIDI_INDEX + MIDI_BUFFER_PAYLOAD_SIZE * idx) % MIDI_BUFFER_SIZE` (the two
trailing words at the two following raw indices), then stores
`RTMIDI_INDEX := (absIdx + 1) % MIDI_BUFFER_SIZE` for the **last** `absIdx`
of the loop and subtracts `n` from `AVAIL_RTMIDI_EVENTS`.  Returns the
updated vector and the pushed messages in push order. -/
def drainMidi (midiOn : Bool) (m : Int) (buf : Int → Int) (a : AudioState) :
    AudioState × List (Int × Int × Int) :=
  let n := a.availRtmidiEvents
  if midiOn ∧ 0 < n then
    let r := a.rtmidiIndex
    let pushed := (List.range n.toNat).map fun idx =>
      let absIdx := (r + MIDI_BUFFER_PAYLOAD_SIZE * (idx : Int)).tmod m
      (buf absIdx, buf (absIdx + 1), buf (absIdx + 2))
    let lastIdx := (r + MIDI_BUFFER_PAYLOAD_SIZE * (n - 1)).tmod m
    ({ a with rtmidiIndex := int32 ((lastIdx + 1).tmod m),
              availRtmidiEvents := int32 (a.availRtmidiEvents - n) }, pushed)
  else (a, [])

/-- What one wake of the realtime render loop leaves behind: the shared
vector, whether the wake took the exit branch, whether the pause check
actually blocked, and the MIDI messages pushed to the engine. -/
structure WakeResult where
  state : AudioState
  exited : Bool
  blockedOnPause : Bool
  pushed : List (Int × Int × Int)
deriving DecidableEq

/-- One wake of the realtime render loop of `sabCreateRealtimeAudioThread`
(`sab.worker.js` lines 124-252), with the closure constants the loop read at
setup passed in: `midiOn` (`isRequestingRtMidiInput` truthy), the MIDI ring
modulus `m`, the ring contents `buf`, `hwB`/`swB` (`_B`/`_b`) and the local
`performanceEnded` flag.  In order: the exit check on `STOP`, `IS_PERFORMING`
and `performanceEnded`; the pause check `Atomics.wait(state, IS_PAUSED, 0)`
guarded by `IS_PAUSED = 1` — which blocks only when the word equals the
expected 0, so never while it equals 1, and the wake falls through; the MIDI
drain; the copy loop advancing the two ring cursors `swB` times (the sample
copying itself touches only the float rings, which the shared-word claims do
not consult); the counter publishing (`AVAIL_IN_BUFS -= swB` only under
`hasInput`, `AVAIL_OUT_BUFS += swB` always); and the doorbell re-arm. -/
def wakeStep (midiOn : Bool) (m : Int) (buf : Int → Int) (hwB swB : Int)
    (performanceEnded : Bool) (a : AudioState) : WakeResult :=
  if a.stop = 1 ∨ a.isPerforming ≠ 1 ∨ performanceEnded = true then
    { state := a, exited := true, blockedOnPause := false, pushed := [] }
  else
    let blocked := a.isPaused == 1 && atomicsWaitBlocks a.isPaused 0
    let dm := drainMidi midiOn m buf a
    let a1 := dm.1
    let a2 : AudioState :=
      if swB ≤ a1.availInBufs then
        { a1 with inputReadIndex := (advanceIndex hwB)^[swB.toNat] a1.inputReadIndex }
      else a1
    let a3 : AudioState :=
      { a2 with outputWriteIndex := (advanceIndex hwB)^[swB.toNat] a2.outputWriteIndex }
    let a4 : AudioState :=
      if swB ≤ a1.availInBufs then
        { a3 with availInBufs := int32 (a3.availInBufs - swB) }
      else a3
    let a5 : AudioState := { a4 with availOutBufs := int32 (a4.availOutBufs + swB) }
    let a6 : AudioState := { a5 with atomicNotify := 0 }
    { state := a6, exited := false, blockedOnPause := blocked, pushed := dm.2 }

/-- The host's buffer bookkeeping around `csoundReset`.  `initialize` captures
the shared state buffer in a local constant that `csoundStart` and the
performance callbacks close over, while `csoundReset` replaces
`this.audioStateBuffer` and `this.audioStatePointer` with a fresh allocation:
afterwards the two names refer to different buffers.  The heap maps buffer
ids to contents; `mainPtr` is the buffer behind `this.audioStatePointer`,
`closurePtr` the one captured at `initialize` time; the MIDI word buffer is
never reallocated, so it stays a single shared one. -/
structure HostBuffers where
  heap : Nat → AudioState
  midiWords : Int → Int
  mainPtr : Nat
  closurePtr : Nat
  nextId : Nat

/-- The buffers as `initialize` leaves them: one freshly allocated state
vector, referred to both by `this.audioStatePointer` and by the captured
closure constant. -/
def initHostBuffers : HostBuffers where
  heap := fun _ => initialSharedState
  midiWords := fun _ => 0
  mainPtr := 0
  closurePtr := 0
  nextId := 1

/-- The buffer effect of `csoundReset`: a fresh `SharedArrayBuffer` of
template length (zero-filled, i.e. `initialSharedState`) becomes
`this.audioStateBuffer`/`this.audioStatePointer`, while the closure constant
captured at `initialize` time keeps pointing at the old buffer.  (The stop on
stopable states and the engine-side reset the method also performs do not
touch the buffer identities.) -/
def csoundResetBuffers (h : HostBuffers) : HostBuffers :=
  { h with
    heap := fun i => if i = h.nextId then initialSharedState else h.heap i,
    mainPtr := h.nextId,
    nextId := h.nextId + 1 }

/-- A MIDI input arriving at the host after possible resets: `handleMidiInput`
runs against `this.audioStatePointer`, i.e. the buffer `mainPtr` names. -/
def hostMidi (m : Int) (h : HostBuffers) (status data1 data2 : Int) : HostBuffers :=
  let r := handleMidiInput m (h.heap h.mainPtr) h.midiWords status data1 data2
  { h with
    heap := fun i => if i = h.mainPtr then r.1 else h.heap i,
    midiWords := r.2 }

/-- The worker-side start transition of the host model: the worker setup
rewrites the shared vector and broadcasts `realtimePerformanceStarted`, which
the host handler then records. -/
def workerRealtimeStart (e : Engine) (m : MainState) : MainState :=
  onPlayStateChange { m with audioState := (sabSetup e).1 }
    PlayState.realtimePerformanceStarted

/-- The worker-side realtime end transition: the broadcast of
`realtimePerformanceEnded` handled by the host. -/
def broadcastRealtimeEnded (m : MainState) : MainState :=
  onPlayStateChange m PlayState.realtimePerformanceEnded

/-- Modelled from the spec: the glue that starts the offline render loop
(`handleCsoundStart` in `common.utils.js`) is not among the sources; §4.3
says nothing about it touching the shared vector beyond what `renderFn` does,
and `renderFn` stores `IS_PERFORMING := 1` on entry.  The broadcast of
`renderStarted` is then handled by the host. -/
def broadcastRenderStarted (m : MainState) : MainState :=
  onPlayStateChange
    { m with audioState := { m.audioState with isPerforming := 1 } }
    PlayState.renderStarted

/-- The offline render end transition: `renderFn` stores `IS_PERFORMING := 0`
when its loop falls through, and the `renderEnded` broadcast is handled by
the host. -/
def broadcastRenderEnded (m : MainState) : MainState :=
  onPlayStateChange
    { m with audioState := { m.audioState with isPerforming := 0 } }
    PlayState.renderEnded

/-- The host states an execution of the lifecycle operations can exhibit:
the constructed state, followed by any interleaving of the host calls and the
worker broadcasts. -/
inductive Reachable : MainState → Prop
  | init : Reachable initialMain
  | pauseStep (m : MainState) : Reachable m → Reachable (csoundPause m).state
  | resumeStep (m : MainState) : Reachable m → Reachable (csoundResume m).state
  | stopStep (m : MainState) : Reachable m → Reachable (csoundStop m).state
  | rtStart (m : MainState) (e : Engine) : Reachable m → Reachable (workerRealtimeStart e m)
  | rtEnded (m : MainState) : Reachable m → Reachable (broadcastRealtimeEnded m)
  | renderBegin (m : MainState) : Reachable m → Reachable (broadcastRenderStarted m)
  | renderEnd (m : MainState) : Reachable m → Reachable (broadcastRenderEnded m)

/-- The host state after a render performance was paused mid-render, ran to
its end, and a second render was started: the play state is `renderStarted`
while `IS_PAUSED` still holds 1, since nothing on that path stores 0 over
it. -/
def pausedRenderRestart : MainState :=
  broadcastRenderStarted
    (broadcastRenderEnded (csoundPause (broadcastRenderStarted initialMain)).state)

/-- The MIDI-delivery scenario of §8, up to the wake: an engine requesting
realtime MIDI, the worker setup, then three `handleMidiInput` calls.  The
ring modulus is left as a parameter. -/
def midiScenarioPre (m : Int) : AudioState × (Int → Int) :=
  let e : Engine := { nchnls := 2, nchnlsInput := 0, sr := 44100, ksmps := 128,
                      isRequestingRtMidiInput := 1, inputName := "dac" }
  let a0 := (sabSetup e).1
  let s1 := handleMidiInput m a0 (fun _ => 0) 0x90 60 100
  let s2 := handleMidiInput m s1.1 s1.2 0x80 60 0
  handleMidiInput m s2.1 s2.2 0xB0 7 64

/-- The MIDI-delivery scenario of §8: the three enqueued events, then one
wake; the closure constants `_B`/`_b` are the template's 4096/128. -/
def midiScenario (m : Int) : WakeResult :=
  let s3 := midiScenarioPre m
  wakeStep true m s3.2 4096 128 false s3.1

/-- A store into a 32-bit word returns the stored value unchanged when it
already lies in the signed 32-bit range. -/
theorem int32_eq_self {x : Int} (h1 : -(2 ^ 31) ≤ x) (h2 : x < 2 ^ 31) :
    int32 x = x := by
  unfold int32
  have h3 : (x + 2 ^ 31) % 2 ^ 32 = x + 2 ^ 31 :=
    Int.emod_eq_of_lt (by omega) (by omega)
  omega

/-- Truncating remainder of a small non-negative value is the value itself. -/
theorem tmod_small {x m : Int} (h0 : 0 ≤ x) (h1 : x < m) : x.tmod m = x := by
  rw [Int.tmod_eq_emod h0 (by omega)]
  exact Int.emod_eq_of_lt h0 h1

/-- The MIDI drain never touches the two audio frame counters. -/
theorem drainMidi_preserves (midiOn : Bool) (m : Int) (buf : Int → Int)
    (a : AudioState) :
    (drainMidi midiOn m buf a).1.availInBufs = a.availInBufs ∧
    (drainMidi midiOn m buf a).1.availOutBufs = a.availOutBufs := by
  simp only [drainMidi]
  split <;> simp

/-- C1 (counterexample): at a reachable stopable state whose `IS_PAUSED` word
holds 1 while the play state is `renderStarted` — a render was paused
mid-performance, ran to its end, and a second render was started, and nothing
on that path stores 0 over `IS_PAUSED` — `csoundStop` stores `STOP` and
`IS_PERFORMING` and returns 0, but neither clears `IS_PAUSED` nor notifies
it, because the source keys that step on
`currentPlayState === "realtimePerformancePaused"`, not on the `IS_PAUSED`
word. -/
theorem csound_stop_isPaused_counterexample :
    Reachable pausedRenderRestart ∧
    pausedRenderRestart.currentPlayState ∈ stopableStates ∧
    pausedRenderRestart.audioState.isPaused = 1 ∧
    (csoundStop pausedRenderRestart).state.audioState.stop = 1 ∧
    (csoundStop pausedRenderRestart).state.audioState.isPerforming = 0 ∧
    (csoundStop pausedRenderRestart).ret = 0 ∧
    ¬ ((csoundStop pausedRenderRestart).state.audioState.isPaused = 0 ∧
       (csoundStop pausedRenderRestart).notifiedIsPaused = true) := by
  refine ⟨?_, by decide, by decide, by decide, by decide, by decide, by decide⟩
  exact Reachable.renderBegin _ (Reachable.renderEnd _
    (Reachable.pauseStep _ (Reachable.renderBegin _ Reachable.init)))

/-- C1 (amended): for every call to `stop()` made while the current play
state is in the stopable set, the host sets `STOP = 1` and
`IS_PERFORMING = 0`; if the play state is `realtimePerformancePaused` it
clears `IS_PAUSED` to 0 and notifies waiters on `IS_PAUSED`; if the state is
not `renderStarted` it stores 1 into the doorbell word (the store names the
`ATOMIC_NOFITY` spelling, the notify the `ATOMIC_NOTIFY` one; both are the
same word here) and notifies waiters on it; and the 0 it returns is delivered
once the worker broadcast of `realtimePerformanceEnded` or `renderEnded`
resolves the pending `stopPromiz`. -/
theorem csound_stop_stopable_behavior (m : MainState)
    (hm : m.currentPlayState ∈ stopableStates) :
    (csoundStop m).state.audioState.stop = 1 ∧
    (csoundStop m).state.audioState.isPerforming = 0 ∧
    (m.currentPlayState = PlayState.realtimePerformancePaused →
      (csoundStop m).state.audioState.isPaused = 0 ∧
      (csoundStop m).notifiedIsPaused = true) ∧
    (m.currentPlayState ≠ PlayState.renderStarted →
      (csoundStop m).state.audioState.atomicNotify = 1 ∧
      (csoundStop m).notifiedAtomicNotify = true) ∧
    (csoundStop m).ret = 0 ∧
    (csoundStop m).state.stopPending = true ∧
    (onPlayStateChange (csoundStop m).state
        PlayState.realtimePerformanceEnded).stopPending = false ∧
    (onPlayStateChange (csoundStop m).state PlayState.renderEnded).stopPending
        = false := by
  simp only [stopableStates, List.mem_cons, List.not_mem_nil, or_false] at hm
  rcases hm with h | h | h | h <;>
    simp [csoundStop, onPlayStateChange, stopableStates, h]

/-- C1 (witness): the amended behavior evaluated with the play state
`realtimePerformanceStarted` over the template vector. -/
theorem csound_stop_stopable_behavior_witness :
    (⟨PlayState.realtimePerformanceStarted, initialSharedState, false⟩
        : MainState).currentPlayState ∈ stopableStates ∧
    (csoundStop ⟨PlayState.realtimePerformanceStarted, initialSharedState,
        false⟩).state.audioState.stop = 1 ∧
    (csoundStop ⟨PlayState.realtimePerformanceStarted, initialSharedState,
        false⟩).state.audioState.atomicNotify = 1 ∧
    (csoundStop ⟨PlayState.realtimePerformanceStarted, initialSharedState,
        false⟩).ret = 0 :=
  have h := csound_stop_stopable_behavior
    ⟨PlayState.realtimePerformanceStarted, initialSharedState, false⟩ (by decide)
  ⟨by decide, h.1, (h.2.2.2.1 (by decide)).1, h.2.2.2.2.1⟩

/-- C2: `csoundStop` called while the play state is not stopable returns -1
and performs no store at all: the whole host state, its `audio_state` vector
included, is returned unchanged, and nothing is notified. -/
theorem csound_stop_not_stopable_noop (m : MainState)
    (hm : m.currentPlayState ∉ stopableStates) :
    csoundStop m = ⟨m, -1, false, false⟩ := by
  simp [csoundStop, hm]

/-- C2 (witness): `stop()` with the play state `stop`. -/
theorem csound_stop_not_stopable_noop_witness :
    (⟨PlayState.stopped, initialSharedState, false⟩
        : MainState).currentPlayState ∉ stopableStates ∧
    csoundStop ⟨PlayState.stopped, initialSharedState, false⟩
      = ⟨⟨PlayState.stopped, initialSharedState, false⟩, -1, false, false⟩ :=
  ⟨by decide,
   csound_stop_not_stopable_noop
     ⟨PlayState.stopped, initialSharedState, false⟩ (by decide)⟩

/-- The shared vector of a realtime performance that has been paused: the
worker is live (`IS_PERFORMING = 1`) and the host has stored
`IS_PAUSED := 1`. -/
def pausedWakeState : AudioState :=
  { initialSharedState with isPerforming := 1, isPaused := 1 }

/-- C3 (evaluation at the failing input): a wake that observes
`IS_PAUSED = 1` does **not** block — the source calls
`Atomics.wait(audioStatePointer, IS_PAUSED, 0)` with expected value 0 while
the word holds 1, so the wait returns `"not-equal"` at once — and the wake
falls through to the copy loop, growing `AVAIL_OUT_BUFS` by the full `_b`
while the performance is supposedly paused. -/
theorem pause_wait_not_blocking :
    pausedWakeState.isPaused = 1 ∧
    (wakeStep false 1024 (fun _ => 0) 4096 128 false
        pausedWakeState).blockedOnPause = false ∧
    (wakeStep false 1024 (fun _ => 0) 4096 128 false
        pausedWakeState).exited = false ∧
    (wakeStep false 1024 (fun _ => 0) 4096 128 false
        pausedWakeState).state.availOutBufs
      = pausedWakeState.availOutBufs + 128 := by decide

/-- C7: after the host processes a `realtimePerformanceEnded` play-state
change, the `audio_state` vector equals the `initialSharedState` template in
every field, whatever it held before. -/
theorem ended_restores_initial_state (m : MainState) :
    (onPlayStateChange m PlayState.realtimePerformanceEnded).audioState
      = initialSharedState := rfl

/-- C8 (evaluation at the failing input): after `csoundReset`, the state
vector `this.audioStatePointer` names and the one the `initialize`-time
closure passes to the worker are different buffers, so a MIDI input enqueued
after the reset raises `AVAIL_RTMIDI_EVENTS` only in the buffer the worker
never consults: in a fresh session the closure-visible count becomes 1, after
a reset it stays 0 while the host-side count reads 1 — the second
performance does not see the same shared state as a first performance. -/
theorem reset_splits_state_buffers :
    (csoundResetBuffers initHostBuffers).mainPtr
        ≠ (csoundResetBuffers initHostBuffers).closurePtr ∧
    ((hostMidi 1024 initHostBuffers 0x90 60 100).heap
        (hostMidi 1024 initHostBuffers 0x90 60 100).closurePtr).availRtmidiEvents
      = 1 ∧
    ((hostMidi 1024 (csoundResetBuffers initHostBuffers) 0x90 60 100).heap
        (hostMidi 1024 (csoundResetBuffers initHostBuffers) 0x90 60
          100).closurePtr).availRtmidiEvents = 0 ∧
    ((hostMidi 1024 (csoundResetBuffers initHostBuffers) 0x90 60 100).heap
        (hostMidi 1024 (csoundResetBuffers initHostBuffers) 0x90 60
          100).mainPtr).availRtmidiEvents = 1 := by decide

/-- C10: when the `csoundPause` guard fails (`IS_PAUSED = 1`, or `STOP = 1`,
or `IS_PERFORMING ≠ 1`), and when the `csoundResume` guard fails
(`IS_PAUSED = 0`, or `STOP = 1`, or `IS_PERFORMING ≠ 1`), the call leaves
the whole host state — every `audio_state` field included — unchanged,
pushes no play-state change, notifies nothing, and resolves with no value
rather than an error code. -/
theorem pause_resume_guard_noop (m : MainState) :
    ((m.audioState.isPaused = 1 ∨ m.audioState.stop = 1 ∨
        m.audioState.isPerforming ≠ 1) →
      csoundPause m = ⟨m, none, false, none⟩) ∧
    ((m.audioState.isPaused ≠ 1 ∨ m.audioState.stop = 1 ∨
        m.audioState.isPerforming ≠ 1) →
      csoundResume m = ⟨m, none, false, none⟩) := by
  constructor <;> intro h
  · rw [csoundPause, if_neg (by tauto)]
  · rw [csoundResume, if_neg (by tauto)]

/-- C10 (witness): pause and resume both refused on a vector whose `STOP`
word holds 1. -/
theorem pause_resume_guard_noop_witness :
    csoundPause ⟨PlayState.realtimePerformanceStarted,
        { initialSharedState with stop := 1, isPerforming := 1 }, false⟩
      = ⟨⟨PlayState.realtimePerformanceStarted,
          { initialSharedState with stop := 1, isPerforming := 1 }, false⟩,
         none, false, none⟩ ∧
    csoundResume ⟨PlayState.realtimePerformanceStarted,
        { initialSharedState with stop := 1, isPerforming := 1 }, false⟩
      = ⟨⟨PlayState.realtimePerformanceStarted,
          { initialSharedState with stop := 1, isPerforming := 1 }, false⟩,
         none, false, none⟩ :=
  ⟨(pause_resume_guard_noop _).1 (by decide),
   (pause_resume_guard_noop _).2 (by decide)⟩

/-- An engine whose block size is 64 frames, used to evaluate the worker
setup. -/
def ksmpsEngine : Engine :=
  { nchnls := 2, nchnlsInput := 0, sr := 44100, ksmps := 64,
    isRequestingRtMidiInput := 0, inputName := "dac" }

/-- C6 (counterexample): at broadcast time the vector carries the engine's
`nchnls` and `sample_rate` and `IS_PERFORMING = 1`, but its `KSMPS` slot does
not equal the engine's `get_ksmps` result: the setup reads `ksmps` into a
local and never stores it into `audio_state`, so the slot keeps its template
value. -/
theorem setup_ksmps_counterexample :
    (sabSetup ksmpsEngine).2 = PlayState.realtimePerformanceStarted ∧
    ¬ ((sabSetup ksmpsEngine).1.isPerforming = 1 ∧
       (sabSetup ksmpsEngine).1.nchnls = ksmpsEngine.nchnls ∧
       (sabSetup ksmpsEngine).1.sampleRate = ksmpsEngine.sr ∧
       (sabSetup ksmpsEngine).1.ksmps = ksmpsEngine.ksmps) := by decide

/-- C6 (amended): immediately after the worker broadcasts
`realtimePerformanceStarted`, the vector satisfies `IS_PERFORMING = 1` and
its `NCHNLS` and `SAMPLE_RATE` fields equal the engine's `get_nchnls` and
`get_sr` results; the `get_ksmps` result is only read into a local, so the
`KSMPS` field still holds its `initialSharedState` template entry. -/
theorem setup_publishes_queries (e : Engine)
    (hn0 : -(2 ^ 31) ≤ e.nchnls) (hn1 : e.nchnls < 2 ^ 31)
    (hs0 : -(2 ^ 31) ≤ e.sr) (hs1 : e.sr < 2 ^ 31) :
    (sabSetup e).2 = PlayState.realtimePerformanceStarted ∧
    (sabSetup e).1.isPerforming = 1 ∧
    (sabSetup e).1.nchnls = e.nchnls ∧
    (sabSetup e).1.sampleRate = e.sr ∧
    (sabSetup e).1.ksmps = initialSharedState.ksmps := by
  refine ⟨rfl, rfl, ?_, ?_, rfl⟩
  · simp only [sabSetup]
    exact int32_eq_self hn0 hn1
  · simp only [sabSetup]
    exact int32_eq_self hs0 hs1

/-- C6 (witness): the amended setup behavior evaluated on a 48 kHz stereo
engine. -/
theorem setup_publishes_queries_witness :
    (sabSetup ⟨2, 0, 48000, 32, 0, "dac"⟩).2
        = PlayState.realtimePerformanceStarted ∧
    (sabSetup ⟨2, 0, 48000, 32, 0, "dac"⟩).1.isPerforming = 1 ∧
    (sabSetup ⟨2, 0, 48000, 32, 0, "dac"⟩).1.nchnls
        = (⟨2, 0, 48000, 32, 0, "dac"⟩ : Engine).nchnls ∧
    (sabSetup ⟨2, 0, 48000, 32, 0, "dac"⟩).1.sampleRate
        = (⟨2, 0, 48000, 32, 0, "dac"⟩ : Engine).sr ∧
    (sabSetup ⟨2, 0, 48000, 32, 0, "dac"⟩).1.ksmps
        = initialSharedState.ksmps :=
  setup_publishes_queries ⟨2, 0, 48000, 32, 0, "dac"⟩
    (by decide) (by decide) (by decide) (by decide)

/-- C9: `handleMidiInput` never checks capacity: from any queue state it
stores the three words of the event at
`(AVAIL_RTMIDI_EVENTS * MIDI_BUFFER_PAYLOAD_SIZE + RTMIDI_INDEX) mod
MIDI_BUFFER_SIZE` (and the two following raw slots), leaves every other slot
alone, and adds exactly 1 to `AVAIL_RTMIDI_EVENTS`; when the ring already
holds `MIDI_BUFFER_SIZE / MIDI_BUFFER_PAYLOAD_SIZE` unconsumed events the
write index wraps exactly onto `RTMIDI_INDEX` — the first word of the oldest
unconsumed event — and the count grows past the ring's event capacity. -/
theorem handleMidiInput_unconditional_append (m : Int) (a : AudioState)
    (buf : Int → Int) (status data1 data2 : Int)
    (hm : 0 < m) (hr0 : 0 ≤ a.rtmidiIndex) (hr1 : a.rtmidiIndex < m)
    (hq0 : 0 ≤ a.availRtmidiEvents)
    (hq1 : a.availRtmidiEvents + 1 < 2 ^ 31) :
    (handleMidiInput m a buf status data1 data2).1.availRtmidiEvents
        = a.availRtmidiEvents + 1 ∧
    (handleMidiInput m a buf status data1 data2).2
        ((a.availRtmidiEvents * MIDI_BUFFER_PAYLOAD_SIZE
           + a.rtmidiIndex).tmod m) = int32 status ∧
    (handleMidiInput m a buf status data1 data2).2
        ((a.availRtmidiEvents * MIDI_BUFFER_PAYLOAD_SIZE
           + a.rtmidiIndex).tmod m + 1) = int32 data1 ∧
    (handleMidiInput m a buf status data1 data2).2
        ((a.availRtmidiEvents * MIDI_BUFFER_PAYLOAD_SIZE
           + a.rtmidiIndex).tmod m + 2) = int32 data2 ∧
    (∀ j, j ≠ (a.availRtmidiEvents * MIDI_BUFFER_PAYLOAD_SIZE
                + a.rtmidiIndex).tmod m →
      j ≠ (a.availRtmidiEvents * MIDI_BUFFER_PAYLOAD_SIZE
            + a.rtmidiIndex).tmod m + 1 →
      j ≠ (a.availRtmidiEvents * MIDI_BUFFER_PAYLOAD_SIZE
            + a.rtmidiIndex).tmod m + 2 →
      (handleMidiInput m a buf status data1 data2).2 j = buf j) ∧
    ((3 : Int) ∣ m → a.availRtmidiEvents = m / 3 →
      (a.availRtmidiEvents * MIDI_BUFFER_PAYLOAD_SIZE
        + a.rtmidiIndex).tmod m = a.rtmidiIndex) := by
  refine ⟨?_, ?_, ?_, ?_, ?_, ?_⟩
  · simp only [handleMidiInput]
    exact int32_eq_self (by omega) (by omega)
  · simp only [handleMidiInput, storeAt]
    split_ifs <;> first | rfl | omega
  · simp only [handleMidiInput, storeAt]
    split_ifs <;> first | rfl | omega
  · simp only [handleMidiInput, storeAt]
    split_ifs <;> rfl
  · intro j hj1 hj2 hj3
    simp only [handleMidiInput, storeAt]
    rw [if_neg hj3, if_neg hj2, if_neg hj1]
  · intro hdvd hcap
    rw [hcap, MIDI_BUFFER_PAYLOAD_SIZE, Int.ediv_mul_cancel hdvd,
      Int.tmod_eq_emod (by omega) (by omega)]
    have key := @Int.add_mul_emod_self_left a.rtmidiIndex m 1
    rw [mul_one] at key
    rw [Int.add_comm, key, Int.emod_eq_of_lt hr0 hr1]

/-- A MIDI queue already holding its full event capacity of a 12-word ring:
4 unconsumed events, consume cursor at word 3. -/
def midiFull : AudioState :=
  { initialSharedState with availRtmidiEvents := 4, rtmidiIndex := 3 }

/-- C9 (witness): appending to the full 12-word ring lands the status word
exactly on the consume cursor — the oldest unconsumed event — and pushes the
count past the capacity of 4. -/
theorem handleMidiInput_unconditional_append_witness :
    (handleMidiInput 12 midiFull (fun _ => 0) 144 60 100).1.availRtmidiEvents
        = midiFull.availRtmidiEvents + 1 ∧
    (midiFull.availRtmidiEvents * MIDI_BUFFER_PAYLOAD_SIZE
        + midiFull.rtmidiIndex).tmod 12 = midiFull.rtmidiIndex ∧
    (handleMidiInput 12 midiFull (fun _ => 0) 144 60 100).2
        midiFull.rtmidiIndex = int32 144 :=
  have h := handleMidiInput_unconditional_append 12 midiFull (fun _ => 0)
    144 60 100 (by decide) (by decide) (by decide) (by decide) (by decide)
  have hwrap := h.2.2.2.2.2 (by decide) (by decide)
  ⟨h.1, hwrap, hwrap ▸ h.2.1⟩

/-- C5: every wake of the realtime render loop that reaches the
counter-publishing step — i.e. does not take the exit branch — grows
`AVAIL_OUT_BUFS` by exactly `_b`, and shrinks `AVAIL_IN_BUFS` by exactly `_b`
if and only if `hasInput` (`AVAIL_IN_BUFS ≥ _b`) held at the start of the
wake.  The range hypotheses rule out 32-bit wrap-around of the counters. -/
theorem wake_publishes_counters (midiOn : Bool) (m : Int) (buf : Int → Int)
    (hwB swB : Int) (performanceEnded : Bool) (a : AudioState)
    (hstop : a.stop ≠ 1) (hperf : a.isPerforming = 1)
    (hpe : performanceEnded = false)
    (hswB0 : 0 < swB) (hswB1 : swB < 2 ^ 31)
    (hin0 : 0 ≤ a.availInBufs) (hin1 : a.availInBufs < 2 ^ 31)
    (hout0 : 0 ≤ a.availOutBufs) (hout1 : a.availOutBufs + swB < 2 ^ 31) :
    (wakeStep midiOn m buf hwB swB performanceEnded a).state.availOutBufs
        = a.availOutBufs + swB ∧
    ((wakeStep midiOn m buf hwB swB performanceEnded a).state.availInBufs
        = a.availInBufs - swB ↔ swB ≤ a.availInBufs) := by
  have hexit : ¬ (a.stop = 1 ∨ a.isPerforming ≠ 1 ∨ performanceEnded = true) := by
    simp [hstop, hperf, hpe]
  obtain ⟨hIn, hOut⟩ := drainMidi_preserves midiOn m buf a
  by_cases h : swB ≤ a.availInBufs
  · simp only [wakeStep, if_neg hexit, hIn, hOut, if_pos h]
    constructor
    · exact int32_eq_self (by omega) (by omega)
    · rw [int32_eq_self (by omega) (by omega)]
      exact iff_of_true rfl h
  · simp only [wakeStep, if_neg hexit, hIn, hOut, if_neg h]
    refine ⟨int32_eq_self (by omega) (by omega), ?_⟩
    constructor <;> intro hc <;> omega

/-- The vector of a live realtime performance with 128 input frames
available, used to evaluate one wake. -/
def wakeWitnessState : AudioState :=
  { initialSharedState with isPerforming := 1, availInBufs := 128 }

/-- C5 (witness): one wake over 128 available input frames with `_b = 128`
moves both counters by 128. -/
theorem wake_publishes_counters_witness :
    (wakeStep false 1024 (fun _ => 0) 4096 128 false
        wakeWitnessState).state.availOutBufs
      = wakeWitnessState.availOutBufs + 128 ∧
    ((wakeStep false 1024 (fun _ => 0) 4096 128 false
        wakeWitnessState).state.availInBufs
      = wakeWitnessState.availInBufs - 128 ↔
        (128 : Int) ≤ wakeWitnessState.availInBufs) :=
  wake_publishes_counters false 1024 (fun _ => 0) 4096 128 false
    wakeWitnessState (by decide) (by decide) (by decide) (by decide)
    (by decide) (by decide) (by decide) (by decide) (by decide)

/-- C4 (counterexample): in the three-event MIDI scenario over a 1024-word
ring, the wake does push the three messages in order and clears the count,
but the consume cursor ends at 7, not at `9 mod MIDI_BUFFER_SIZE`: the store
is `(absIdx + 1) mod MIDI_BUFFER_SIZE` with `absIdx` the **first** word of
the last consumed event, not one past its last word. -/
theorem midi_consume_cursor_counterexample :
    ¬ ((midiScenario 1024).pushed
          = [(0x90, 60, 100), (0x80, 60, 0), (0xB0, 7, 64)] ∧
       (midiScenario 1024).state.availRtmidiEvents = 0 ∧
       (midiScenario 1024).state.rtmidiIndex = (9 : Int).tmod 1024) := by
  decide

/-- C4 (amended): three `on_midi` calls `(0x90,60,100)`, `(0x80,60,0)`,
`(0xB0,7,64)` before any wake leave `AVAIL_RTMIDI_EVENTS = 3`; the next wake
with MIDI requested pushes exactly those three messages in that order,
returns `AVAIL_RTMIDI_EVENTS` to 0, and leaves
`RTMIDI_INDEX = 7 mod MIDI_BUFFER_SIZE` — one past the **first** word of the
last consumed event, not one past its last word — evaluated here over the
1024-word ring.  (`7 ≡ 9` would need a modulus dividing 2, and the ring
holds at least one three-word event, so no admissible ring size rescues the
original claim.) -/
theorem midi_scenario_behavior :
    (midiScenarioPre 1024).1.availRtmidiEvents = 3 ∧
    (midiScenario 1024).state.availRtmidiEvents
        = 0 ∧
    (midiScenario 1024).pushed
        = [(0x90, 60, 100), (0x80, 60, 0), (0xB0, 7, 64)] ∧
    (midiScenario 1024).state.rtmidiIndex = (7 : Int).tmod 1024 := by
  decide

/-- C7 (witness): the template restore evaluated on a paused, stop-flagged
vector with a pending stop. -/
theorem ended_restores_initial_state_witness :
    (onPlayStateChange
        ⟨PlayState.realtimePerformancePaused,
         { initialSharedState with isPaused := 1, stop := 1 }, true⟩
        PlayState.realtimePerformanceEnded).audioState = initialSharedState :=
  ended_restores_initial_state
    ⟨PlayState.realtimePerformancePaused,
     { initialSharedState with isPaused := 1, stop := 1 }, true⟩
